import Mathlib

/-
  Verification of the CaptionPilot publish pipeline.

  Shallow embedding of the core subsystem (src/lib/instagram.ts,
  src/lib/cloudinary.ts, src/lib/postUpload.ts, src/lib/scheduler.ts,
  src/lib/db.ts).  Every network call (fetch) is represented by an oracle
  field of an environment structure giving the parsed outcome of that call
  (Except String _ mirrors the thrown-or-returned behaviour of the source);
  the deterministic control flow around the calls is translated directly
  from the source.  The local post store (IndexedDB object store keyed by
  id, db.ts) is a list of records; updateDraftPost is an insert-or-replace
  put keyed by id, as in the source.
-/

namespace CaptionPilot

/-- Advisory status of a draft post (db.ts, DraftPost.status). -/
inductive PostStatus where
  | new
  | published
  | scheduled
deriving DecidableEq, Repr

/-- Target platform of a draft post (db.ts, DraftPost.platform). -/
inductive Platform where
  | instagram
  | pinterest
deriving DecidableEq, Repr

/-- Local image metadata stored on a post (db.ts, DraftPost.images entries). -/
structure ImageMeta where
  fileName : String
  mimeType : String
  size : Nat
deriving DecidableEq, Repr

/-- Result of one successful Cloudinary upload (cloudinary.ts,
CloudinaryUploadResult). -/
structure CloudinaryUploadResult where
  publicId : String
  secureUrl : String
  width : Nat
  height : Nat
  format : String
  bytes : Nat
  createdAt : String
deriving DecidableEq, Repr

/-- A draft post record (db.ts DraftPost, together with the
cloudinaryImages / instagramPostId / instagramContainerId fields that
postUpload.ts and scheduler.ts read and write on the same records).
Times are epoch milliseconds, modelled as Int. -/
structure DraftPost where
  id : String
  createdAt : Int
  caption : String
  images : List ImageMeta
  position : Option Int
  status : Option PostStatus
  platform : Option Platform
  cloudinaryImages : Option (List CloudinaryUploadResult)
  instagramPostId : Option String
  instagramContainerId : Option String
deriving DecidableEq, Repr

/-- The draft-post object store: a list of records keyed by id. -/
abbrev Store := List DraftPost

/-- updateDraftPost (db.ts): an IndexedDB put, i.e. insert-or-replace by
primary key id. -/
def updateDraftPost (store : Store) (post : DraftPost) : Store :=
  if store.any (fun q => q.id = post.id) then
    store.map (fun q => if q.id = post.id then post else q)
  else
    store ++ [post]

/-- Look up the record with the given id (IndexedDB get by key). -/
def getDraftPost (store : Store) (id : String) : Option DraftPost :=
  store.find? (fun q => q.id = id)

/- ### Remote publish client (instagram.ts) -/

/-- One entry of the `GET /me/accounts` response data array. -/
structure PageAccount where
  id : String
  accessToken : String
  name : String
deriving DecidableEq, Repr

/-- Body of a `POST /{ig_user_id}/media` call: the three request shapes
built by createSingleImageContainer, createCarouselItemContainers and
createCarouselContainer (instagram.ts). -/
inductive MediaRequest where
  | single (imageUrl : String) (caption : String)
  | carouselItem (imageUrl : String)
  | carouselParent (children : String) (caption : String)
deriving DecidableEq, Repr

/-- A network call made by the publish workflow, recorded for the trace. -/
inductive IgCall where
  | media (req : MediaRequest)
  | mediaPublish (creationId : String)
deriving DecidableEq, Repr

/-- Oracle for the Instagram graph API: the parsed outcome of each fetch in
instagram.ts.  `.error` models the function throwing (HTTP failure, error
object in the body, or missing fields); `.ok` models the value extracted
from a good response. -/
structure IgEnv where
  meAccounts : Except String PageAccount
  igBusinessAccount : String → Except String String
  mediaContainer : MediaRequest → Except String String
  mediaPublishCall : String → Except String String

/-- Resolved page and Instagram identity (getPageInfo, instagram.ts):
step 1 reads accounts data[0], step 2 resolves the Instagram business
account of that page. -/
structure PageInfo where
  pageAccessToken : String
  pageId : String
  instagramUserId : String
deriving DecidableEq, Repr

/-- getPageInfo (instagram.ts, steps 1 and 2). -/
def getPageInfo (env : IgEnv) : Except String PageInfo :=
  match env.meAccounts with
  | .error e => .error e
  | .ok acc =>
    match env.igBusinessAccount acc.id with
    | .error e => .error e
    | .ok igUserId => .ok ⟨acc.accessToken, acc.id, igUserId⟩

/-- createSingleImageContainer (instagram.ts, step 3 single-image path):
one media call carrying the image URL and the caption. -/
def createSingleImageContainer (env : IgEnv) (imageUrl caption : String) :
    List IgCall × Except String String :=
  let req := MediaRequest.single imageUrl caption
  ([.media req], env.mediaContainer req)

/-- createCarouselItemContainers (instagram.ts, step 3a): one media call
per image, sequential and in input order, each flagged is_carousel_item;
the first failure aborts the loop (the source throws). -/
def createCarouselItemContainers (env : IgEnv) :
    List String → List IgCall × Except String (List String)
  | [] => ([], .ok [])
  | imageUrl :: rest =>
    match env.mediaContainer (.carouselItem imageUrl) with
    | .error e => ([.media (.carouselItem imageUrl)], .error e)
    | .ok containerId =>
      let (trace, res) := createCarouselItemContainers env rest
      (.media (.carouselItem imageUrl) :: trace,
       res.map (fun ids => containerId :: ids))

/-- createCarouselContainer (instagram.ts, step 3b): one media call whose
children parameter is childContainerIds.join(",")
and which carries the caption. -/
def createCarouselContainer (env : IgEnv) (childContainerIds : List String)
    (caption : String) : List IgCall × Except String String :=
  let req := MediaRequest.carouselParent
    (String.intercalate "," childContainerIds) caption
  ([.media req], env.mediaContainer req)

/-- publishMediaContainer (instagram.ts, step 4). -/
def publishMediaContainer (env : IgEnv) (creationId : String) :
    List IgCall × Except String String :=
  ([.mediaPublish creationId], env.mediaPublishCall creationId)

/-- Outcome of the complete workflow (publishInstagramPost return value). -/
structure PublishPostResult where
  containerId : String
  publishedPostId : String
deriving DecidableEq, Repr

/-- Step 3 of publishInstagramPost (instagram.ts): a single container when
imageUrls.length === 1, otherwise the carousel item containers followed,
when they all succeed, by the carousel parent container. -/
def createStep3 (env : IgEnv) (imageUrls : List String) (caption : String) :
    List IgCall × Except String String :=
  if imageUrls.length = 1 then
    createSingleImageContainer env (imageUrls.headD "") caption
  else
    match createCarouselItemContainers env imageUrls with
    | (traceA, .error e) => (traceA, .error e)
    | (traceA, .ok childContainerIds) =>
      let (traceB, parentRes) :=
        createCarouselContainer env childContainerIds caption
      (traceA ++ traceB, parentRes)

/-- publishInstagramPost (instagram.ts): steps 1-2 (getPageInfo), step 3
(createStep3), step 4 (publish).  Any thrown error propagates.  The list
of network calls made is returned alongside the outcome. -/
def publishInstagramPost (env : IgEnv) (imageUrls : List String)
    (caption : String) : List IgCall × Except String PublishPostResult :=
  match getPageInfo env with
  | .error e => ([], .error e)
  | .ok _info =>
    match createStep3 env imageUrls caption with
    | (trace3, .error e) => (trace3, .error e)
    | (trace3, .ok containerId) =>
      let (trace4, pubRes) := publishMediaContainer env containerId
      match pubRes with
      | .error e => (trace3 ++ trace4, .error e)
      | .ok publishedId => (trace3 ++ trace4, .ok ⟨containerId, publishedId⟩)

/- ### Remote upload client (cloudinary.ts) and orchestrator (postUpload.ts) -/

/-- Cloudinary destination configuration (cloudinary.ts, CloudinaryConfig). -/
structure CloudinaryConfig where
  cloudName : String
  uploadPreset : String
  apiKey : Option String
deriving DecidableEq, Repr

/-- Structured per-file upload error (cloudinary.ts, CloudinaryError). -/
structure CloudinaryErrorInfo where
  message : String
  httpCode : Option Nat
deriving DecidableEq, Repr

/-- A local image resolved to a loadable binary (the File object built by
loadImageFile in postUpload.ts). -/
structure LoadedFile where
  name : String
  mimeType : String
deriving DecidableEq, Repr

/-- The app-settings blob read from localStorage in postUpload.ts; only the
Instagram user token is consulted by the orchestrator. -/
structure AppSettings where
  instagramUserToken : Option String
deriving DecidableEq, Repr

/-- Environment of the orchestrator: configuration reads and the outcome of
each external call.  loadImageFile returns none when the asset cannot be
resolved (the source returns null); uploadImage gives the per-file outcome
of uploadImageToCloudinary, which never throws past its boundary. -/
structure UploadEnv where
  cloudinaryConfig : Option CloudinaryConfig
  loadImageFile : ImageMeta → Option LoadedFile
  uploadImage : LoadedFile → Except CloudinaryErrorInfo CloudinaryUploadResult
  appSettings : Option AppSettings
  ig : IgEnv

/-- The image-loading loop of uploadInstagramPostImages (postUpload.ts):
sequentially resolve each stored image, aborting with the failure message
of the first image that cannot be loaded. -/
def loadImageFiles (env : UploadEnv) :
    List ImageMeta → Except String (List LoadedFile)
  | [] => .ok []
  | meta :: rest =>
    match env.loadImageFile meta with
    | none => .error ("Failed to load image " ++ meta.fileName)
    | some file => (loadImageFiles env rest).map (fun fs => file :: fs)

/-- uploadMultipleImagesToCloudinary (cloudinary.ts): N independent
uploads whose results are returned in input order (Promise.all over
files.map); one failure does not cancel the others. -/
def uploadMultipleImagesToCloudinary (env : UploadEnv)
    (files : List LoadedFile) :
    List (Except CloudinaryErrorInfo CloudinaryUploadResult) :=
  files.map env.uploadImage

/-- Result object of the orchestrator (postUpload.ts, UploadResult). -/
structure UploadResult where
  success : Bool
  cloudinaryImages : Option (List CloudinaryUploadResult) := none
  instagramPostId : Option String := none
  instagramContainerId : Option String := none
  error : Option String := none
deriving DecidableEq, Repr

/-- The per-file errors among a batch of upload results (the
uploadResults.filter of postUpload.ts). -/
def uploadErrors (results : List (Except CloudinaryErrorInfo CloudinaryUploadResult)) :
    List CloudinaryErrorInfo :=
  results.filterMap (fun r => match r with
    | .error e => some e
    | .ok _ => none)

/-- The successful uploads among a batch of upload results. -/
def successfulUploadsOf (results : List (Except CloudinaryErrorInfo CloudinaryUploadResult)) :
    List CloudinaryUploadResult :=
  results.filterMap (fun r => match r with
    | .ok u => some u
    | .error _ => none)

/-- One complete run of the orchestrator: the final store, the returned
UploadResult, the Instagram network calls made, and the snapshot of the
store at the instant the publishInstagramPost call was issued (none when
the run never reached that call). -/
structure OrchestratorRun where
  store : Store
  result : UploadResult
  calls : List IgCall
  storeAtPublish : Option Store
deriving Repr

/-- uploadInstagramPostImages (postUpload.ts), with one explicit extra
parameter: midEdit is a store mutation applied at the await suspension
point between persisting the Cloudinary result and the Instagram publish
call, modelling a concurrent edit of the record during that window (the
source is cooperative async; every await is a suspension point).  The
unmodified source behaviour is midEdit = id (see uploadInstagramPostImages
below). -/
def uploadInstagramPostImagesWith (env : UploadEnv) (midEdit : Store → Store)
    (store : Store) (post : DraftPost) : OrchestratorRun :=
  match env.cloudinaryConfig with
  | none =>
    ⟨store,
     { success := false,
       error := some "Cloudinary configuration not found. Please configure your Cloudinary settings." },
     [], none⟩
  | some _config =>
    match loadImageFiles env post.images with
    | .error msg => ⟨store, { success := false, error := some msg }, [], none⟩
    | .ok imageFiles =>
      if imageFiles.isEmpty then
        ⟨store, { success := false, error := some "No images found to upload" }, [], none⟩
      else
        let uploadResults := uploadMultipleImagesToCloudinary env imageFiles
        let errors := uploadErrors uploadResults
        if !errors.isEmpty then
          ⟨store,
           { success := false,
             error := some ("Failed to upload " ++ toString errors.length
               ++ " images: "
               ++ String.intercalate ", " (errors.map (fun e => e.message))) },
           [], none⟩
        else
          let successfulUploads := successfulUploadsOf uploadResults
          if successfulUploads.isEmpty then
            ⟨store,
             { success := false,
               error := some "No images were successfully uploaded" },
             [], none⟩
          else
            let updatedPost : DraftPost :=
              { post with cloudinaryImages := some successfulUploads,
                          status := some .new }
            let store1 := updateDraftPost store updatedPost
            match env.appSettings with
            | none =>
              ⟨store1,
               { success := true, cloudinaryImages := some successfulUploads },
               [], none⟩
            | some settings =>
              match settings.instagramUserToken with
              | none =>
                ⟨store1,
                 { success := true, cloudinaryImages := some successfulUploads },
                 [], none⟩
              | some _token =>
                let storeMid := midEdit store1
                let imageUrls := successfulUploads.map (fun img => img.secureUrl)
                let (calls, igRes) := publishInstagramPost env.ig imageUrls post.caption
                match igRes with
                | .error e =>
                  ⟨storeMid,
                   { success := true,
                     cloudinaryImages := some successfulUploads,
                     error := some ("Images uploaded to Cloudinary successfully, but failed to publish to Instagram: " ++ e) },
                   calls, some storeMid⟩
                | .ok r =>
                  let finalUpdatedPost : DraftPost :=
                    { updatedPost with
                        instagramPostId := some r.publishedPostId,
                        instagramContainerId := some r.containerId }
                  let store2 := updateDraftPost storeMid finalUpdatedPost
                  ⟨store2,
                   { success := true,
                     cloudinaryImages := some successfulUploads,
                     instagramPostId := some r.publishedPostId,
                     instagramContainerId := some r.containerId },
                   calls, some storeMid⟩

/-- uploadInstagramPostImages (postUpload.ts) with no interleaved store
mutation: the plain sequential run of the source. -/
def uploadInstagramPostImages (env : UploadEnv) (store : Store)
    (post : DraftPost) : OrchestratorRun :=
  uploadInstagramPostImagesWith env id store post

/- ### Scheduler (scheduler.ts) -/

/-- Per-platform schedule configuration.  The record type is not in
src/lib/db.ts (getScheduleConfigByType and its record live in a db module
revision outside src); the two fields the scheduler reads are taken from
its callers (ScheduleButton.tsx) and the spec: isActive and
hoursBetweenPosts. -/
structure ScheduleConfig where
  isActive : Bool
  hoursBetweenPosts : Nat
deriving DecidableEq, Repr

/-- Effective position used by the scheduler sort: the position when it is
a number, otherwise -1 (findNextPostToPublish, scheduler.ts). -/
def effPosition (p : DraftPost) : Int :=
  match p.position with
  | some n => n
  | none => -1

/-- The filter of findNextPostToPublish (scheduler.ts): Instagram posts
whose advisory status is not published. -/
def isUnpublishedInstagram (p : DraftPost) : Bool :=
  decide (p.platform = some .instagram) && !decide (p.status = some .published)

/-- Insert a post into a list sorted by descending effective position,
before the first element of strictly smaller effective position (one step
of the stable sort of findNextPostToPublish). -/
def insertByPos (p : DraftPost) : List DraftPost → List DraftPost
  | [] => [p]
  | q :: rest =>
    if effPosition q < effPosition p then p :: q :: rest
    else q :: insertByPos p rest

/-- Stable sort by descending effective position (the comparator
bPos - aPos of findNextPostToPublish; JS Array.prototype.sort is stable,
and insertion after equal keys preserves the original order). -/
def sortByPositionDesc (l : List DraftPost) : List DraftPost :=
  l.foldr insertByPos []

/-- findNextPostToPublish (scheduler.ts): filter the unpublished Instagram
posts, return none when there are none, otherwise the head of the list
sorted by descending effective position. -/
def findNextPostToPublish (allPosts : List DraftPost) : Option DraftPost :=
  let unpublishedPosts := allPosts.filter isUnpublishedInstagram
  if unpublishedPosts.isEmpty then none
  else (sortByPositionDesc unpublishedPosts).head?

/-- publishPost (scheduler.ts): invoke the orchestrator, then
unconditionally write the post back with status published and the
identifiers taken from the orchestrator result (the source never inspects
result.success, and uploadInstagramPostImages never throws, so the catch
branch of publishPost is unreachable from that call).  The record written
is spread from the post as selected at the start of the tick. -/
def publishPost (env : UploadEnv) (store : Store) (post : DraftPost) : Store :=
  let run := uploadInstagramPostImages env store post
  let updatedPost : DraftPost :=
    { post with status := some .published,
                instagramPostId := run.result.instagramPostId,
                instagramContainerId := run.result.instagramContainerId }
  updateDraftPost run.store updatedPost

/-- The published-posts filter of checkInstagramSchedule (scheduler.ts):
Instagram posts whose advisory status is published. -/
def isPublishedInstagram (p : DraftPost) : Bool :=
  decide (p.platform = some .instagram) && decide (p.status = some .published)

/-- Most recent publication time of checkInstagramSchedule: the maximum
createdAt over the published posts, or 0 when there are none
(Math.max over a nonempty list). -/
def lastPublishedTimeOf (publishedPosts : List DraftPost) : Int :=
  if publishedPosts.isEmpty then 0
  else ((publishedPosts.map DraftPost.createdAt).max?).getD 0

/-- Elapsed time since the last publication: now - lastPublishedTime when
lastPublishedTime is nonzero, otherwise Infinity (modelled as none); the
source writes lastPublishedTime ? now - lastPublishedTime : Infinity. -/
def timeSinceLastPostOf (now lastPublishedTime : Int) : Option Int :=
  if lastPublishedTime ≠ 0 then some (now - lastPublishedTime) else none

/-- The comparison timeSinceLastPost < requiredInterval, where none stands
for Infinity and is smaller than nothing. -/
def elapsedLt (timeSince : Option Int) (requiredInterval : Int) : Bool :=
  match timeSince with
  | some v => decide (v < requiredInterval)
  | none => false

/-- Outcome of one scheduler tick: the resulting store and the list of
posts handed to the orchestrator (in order). -/
structure TickResult where
  store : Store
  invoked : List DraftPost
deriving Repr

/-- checkInstagramSchedule (scheduler.ts): no-op without an active config;
otherwise compute the last publication time over the published Instagram
posts, no-op when the elapsed time is below hoursBetweenPosts in
milliseconds, otherwise select the next post and publish it.  The store
list stands for the listDraftPosts result: the db layer only permutes the
records, and every property proved below is permutation-invariant. -/
def checkInstagramSchedule (env : UploadEnv) (schedule : Option ScheduleConfig)
    (now : Int) (store : Store) : TickResult :=
  match schedule with
  | none => ⟨store, []⟩
  | some sch =>
    if !sch.isActive then ⟨store, []⟩
    else
      let allPosts := store
      let publishedPosts := allPosts.filter isPublishedInstagram
      let lastPublishedTime := lastPublishedTimeOf publishedPosts
      let timeSinceLastPost := timeSinceLastPostOf now lastPublishedTime
      let requiredInterval : Int := (sch.hoursBetweenPosts : Int) * 60 * 60 * 1000
      if elapsedLt timeSinceLastPost requiredInterval then ⟨store, []⟩
      else
        match findNextPostToPublish allPosts with
        | none => ⟨store, []⟩
        | some nextPost => ⟨publishPost env store nextPost, [nextPost]⟩

/- ### Scheduler lifecycle (start / stop, scheduler.ts) -/

/-- The mutable fields of the PostScheduler singleton. -/
structure SchedulerState where
  intervalId : Option Nat
  isRunning : Bool
deriving DecidableEq, Repr

/-- Observable actions of start and stop: the immediate check fired on
start, setInterval, and clearInterval. -/
inductive SchedulerAction where
  | runCheck
  | setIntervalTimer (id : Nat)
  | clearIntervalTimer (id : Nat)
deriving DecidableEq, Repr

/-- PostScheduler.start (scheduler.ts): a warn-and-return when already
running; otherwise set isRunning, fire one immediate check, and create one
interval timer whose fresh handle is freshId. -/
def schedulerStart (freshId : Nat) (s : SchedulerState) :
    SchedulerState × List SchedulerAction :=
  if s.isRunning then (s, [])
  else ({ intervalId := some freshId, isRunning := true },
        [.runCheck, .setIntervalTimer freshId])

/-- PostScheduler.stop (scheduler.ts): clear the interval timer when one
exists, then reset both fields. -/
def schedulerStop (s : SchedulerState) :
    SchedulerState × List SchedulerAction :=
  match s.intervalId with
  | some tid => ({ intervalId := none, isRunning := false },
                 [.clearIntervalTimer tid])
  | none => ({ intervalId := none, isRunning := false }, [])

/-- Number of interval timers created by a list of actions. -/
def countTimersCreated (actions : List SchedulerAction) : Nat :=
  (actions.filter (fun a => match a with
    | .setIntervalTimer _ => true
    | _ => false)).length

/- ### Spec-side definitions (refinement comparisons)

These follow the wording of the claims and of spec.md, so that code
behaviour can be compared with the stated candidate sets; they are not
translations of the source. -/

/-- Candidate predicate as the claims word it: a post of the platform that
does not yet have a remote publish identifier. -/
def specCandidate (p : DraftPost) : Bool :=
  decide (p.platform = some .instagram) && decide (p.instagramPostId = none)

/-- Live post as the spec words it: the authoritative live-signal is the
presence of a remote publish identifier. -/
def specLivePost (p : DraftPost) : Bool :=
  decide (p.platform = some .instagram) && !decide (p.instagramPostId = none)

/-- The captions carried by container-creation calls of a trace (the
single-image container and the carousel parent are the only calls that
carry a caption). -/
def captionsOfCalls (calls : List IgCall) : List String :=
  calls.filterMap (fun c => match c with
    | .media (.single _ cap) => some cap
    | .media (.carouselParent _ cap) => some cap
    | _ => none)

/- ### Concrete fixtures for witnesses and counterexamples -/

/-- One hour in milliseconds. -/
def hourMs : Int := 3600000

/-- A stored image. -/
def imgA : ImageMeta := ⟨"a.jpg", "image/jpeg", 100⟩

/-- A second stored image. -/
def imgB : ImageMeta := ⟨"b.jpg", "image/jpeg", 120⟩

/-- Graph-API oracle in which every call succeeds: one page, one linked
Instagram account, container ids derived from the request, publish id
pub1. -/
def igEnvOK : IgEnv :=
  { meAccounts := .ok ⟨"page1", "ptok", "Page One"⟩,
    igBusinessAccount := fun _ => .ok "ig1",
    mediaContainer := fun req =>
      match req with
      | .single _ _ => .ok "c1"
      | .carouselItem u => .ok ("cc-" ++ u)
      | .carouselParent _ _ => .ok "cp1",
    mediaPublishCall := fun _ => .ok "pub1" }

/-- Graph-API oracle in which identity resolution fails (the delegated
token grants no pages). -/
def igEnvAuthFail : IgEnv :=
  { igEnvOK with meAccounts := .error "No Facebook pages found. Make sure your Instagram account is connected to a Facebook page." }

/-- A successful upload outcome for a given file, used by the
environments below. -/
def okUpload (f : LoadedFile) : Except CloudinaryErrorInfo CloudinaryUploadResult :=
  .ok { publicId := f.name, secureUrl := "https://res/" ++ f.name,
        width := 1080, height := 1080, format := "jpg", bytes := 100,
        createdAt := "t" }

/-- Orchestrator environment in which every step succeeds. -/
def envOK : UploadEnv :=
  { cloudinaryConfig := some ⟨"cloud", "preset", none⟩,
    loadImageFile := fun m => some ⟨m.fileName, m.mimeType⟩,
    uploadImage := okUpload,
    appSettings := some ⟨some "usertok"⟩,
    ig := igEnvOK }

/-- Environment with no Cloudinary destination configuration. -/
def envNoConfig : UploadEnv := { envOK with cloudinaryConfig := none }

/-- Environment in which the upload of b.jpg fails and every other step
would succeed. -/
def envUploadFailB : UploadEnv :=
  { envOK with uploadImage := fun f =>
      if f.name = "b.jpg" then .error ⟨"Invalid image file", some 400⟩
      else okUpload f }

/-- Environment in which uploads succeed and the publish protocol fails at
identity resolution. -/
def envPublishFail : UploadEnv := { envOK with ig := igEnvAuthFail }

/-- A fresh single-image Instagram post, never uploaded or published. -/
def post0 : DraftPost :=
  { id := "p0", createdAt := 1000, caption := "Hello",
    images := [imgA], position := some 1, status := some .new,
    platform := some .instagram, cloudinaryImages := none,
    instagramPostId := none, instagramContainerId := none }

/-- A two-image Instagram post. -/
def post2 : DraftPost :=
  { post0 with id := "p2", images := [imgA, imgB], position := some 2 }

/-- A post that is live on the remote platform (remote publish identifier
set) while its advisory status is still new: exactly the state the
orchestrator itself produces on a successful manual publish. -/
def postLiveStatusNew : DraftPost :=
  { post0 with
      id := "plive", instagramPostId := some "ig9",
      instagramContainerId := some "c9", status := some .new,
      createdAt := 990 * hourMs }

/-- A post published 100 hours before the reference tick time (status
published, as the scheduler writes it). -/
def postPub : DraftPost :=
  { post0 with
      id := "ppub", status := some .published,
      createdAt := 900 * hourMs }

/-- A concurrent user edit: set the caption of record p0 to B.  Used as the
midEdit store mutation happening between the upload persist and the
publish call. -/
def midEditCaptionB : Store → Store := fun s =>
  s.map (fun q => if q.id = "p0" then { q with caption := "B" } else q)

end CaptionPilot

/- ## Helper lemmas -/

namespace CaptionPilot

/-- Membership is preserved by one insertion step of the scheduler sort. -/
theorem mem_insertByPos {x p : DraftPost} {l : List DraftPost} :
    x ∈ insertByPos p l ↔ x = p ∨ x ∈ l := by
  induction l with
  | nil => simp [insertByPos]
  | cons q rest ih =>
    by_cases h : effPosition q < effPosition p
    · simp [insertByPos, h]
    · simp [insertByPos, h, ih]
      tauto

/-- The scheduler sort permutes its input as a set. -/
theorem mem_sortByPositionDesc {x : DraftPost} {l : List DraftPost} :
    x ∈ sortByPositionDesc l ↔ x ∈ l := by
  induction l with
  | nil => simp [sortByPositionDesc]
  | cons p rest ih =>
    simp only [sortByPositionDesc, List.foldr] at *
    rw [mem_insertByPos, ih]
    simp

/-- The head of the descending sort is a member of maximal effective
position. -/
theorem head_sortByPositionDesc_max {l : List DraftPost} {m : DraftPost}
    (h : (sortByPositionDesc l).head? = some m) :
    m ∈ l ∧ ∀ q ∈ l, effPosition q ≤ effPosition m := by
  induction l generalizing m with
  | nil => simp [sortByPositionDesc] at h
  | cons p rest ih =>
    have hs : sortByPositionDesc (p :: rest) =
        insertByPos p (sortByPositionDesc rest) := rfl
    rw [hs] at h
    cases hsr : sortByPositionDesc rest with
    | nil =>
      rw [hsr] at h
      simp [insertByPos] at h
      subst h
      constructor
      · simp
      · intro q hq
        rcases List.mem_cons.mp hq with hq | hq
        · simp [hq]
        · exfalso
          have : q ∈ sortByPositionDesc rest := mem_sortByPositionDesc.mpr hq
          rw [hsr] at this
          simp at this
    | cons m0 rest0 =>
      have ihm : m0 ∈ rest ∧ ∀ q ∈ rest, effPosition q ≤ effPosition m0 := by
        apply ih
        rw [hsr]
        rfl
      rw [hsr] at h
      by_cases hlt : effPosition m0 < effPosition p
      · simp [insertByPos, hlt] at h
        subst h
        refine ⟨by simp, ?_⟩
        intro q hq
        rcases List.mem_cons.mp hq with hq | hq
        · exact le_of_eq (congrArg _ hq)
        · exact le_of_lt (lt_of_le_of_lt (ihm.2 q hq) hlt)
      · simp [insertByPos, hlt] at h
        subst h
        refine ⟨List.mem_cons_of_mem _ ihm.1, ?_⟩
        intro q hq
        rcases List.mem_cons.mp hq with hq | hq
        · rw [hq]
          exact le_of_not_lt hlt
        · exact ihm.2 q hq

/-- findNextPostToPublish returns none exactly when no unpublished
Instagram post exists. -/
theorem findNextPostToPublish_none_iff (allPosts : List DraftPost) :
    findNextPostToPublish allPosts = none ↔
      allPosts.filter isUnpublishedInstagram = [] := by
  unfold findNextPostToPublish
  by_cases h : (allPosts.filter isUnpublishedInstagram).isEmpty
  · simp [h, List.isEmpty_iff.mp h]
  · simp only [h, if_false]
    constructor
    · intro hh
      cases hf : allPosts.filter isUnpublishedInstagram with
      | nil => rfl
      | cons a t =>
        exfalso
        have ha : a ∈ sortByPositionDesc (allPosts.filter isUnpublishedInstagram) := by
          rw [mem_sortByPositionDesc, hf]; simp
        cases hsd : sortByPositionDesc (allPosts.filter isUnpublishedInstagram) with
        | nil => rw [hsd] at ha; simp at ha
        | cons b u => rw [hsd] at hh; simp at hh
    · intro hf
      rw [List.isEmpty_iff] at h
      exact absurd hf h

/-- A selected post is an unpublished Instagram post of maximal effective
position among the unpublished Instagram posts. -/
theorem findNextPostToPublish_some_spec {allPosts : List DraftPost}
    {p : DraftPost} (h : findNextPostToPublish allPosts = some p) :
    isUnpublishedInstagram p = true ∧ p ∈ allPosts ∧
      ∀ q ∈ allPosts, isUnpublishedInstagram q = true →
        effPosition q ≤ effPosition p := by
  unfold findNextPostToPublish at h
  by_cases he : (allPosts.filter isUnpublishedInstagram).isEmpty
  · simp [he] at h
  · simp only [he, if_false] at h
    have hmax := head_sortByPositionDesc_max h
    have hmem := hmax.1
    have hp := List.mem_filter.mp hmem
    refine ⟨hp.2, hp.1, ?_⟩
    intro q hq hqu
    exact hmax.2 q (List.mem_filter.mpr ⟨hq, hqu⟩)

/-- Every call of the carousel-items loop is a carousel-item container
creation for one of the input URLs. -/
theorem createCarouselItemContainers_calls (env : IgEnv) :
    ∀ (urls : List String), ∀ c ∈ (createCarouselItemContainers env urls).1,
      ∃ u ∈ urls, c = IgCall.media (.carouselItem u) := by
  intro urls
  induction urls with
  | nil => intro c hc; simp [createCarouselItemContainers] at hc
  | cons u rest ih =>
    intro c hc
    cases h : env.mediaContainer (.carouselItem u) with
    | error e =>
      simp [createCarouselItemContainers, h] at hc
      exact ⟨u, by simp, hc⟩
    | ok cid =>
      simp only [createCarouselItemContainers, h] at hc
      rcases List.mem_cons.mp hc with hc | hc
      · exact ⟨u, by simp, hc⟩
      · obtain ⟨u2, hu2, hcu2⟩ := ih c hc
        exact ⟨u2, by simp [hu2], hcu2⟩

/-- When the carousel-items loop succeeds, the returned identifiers pair up
with the input URLs in order: the identifier at each index is the one the
API returned for the URL at the same index. -/
theorem createCarouselItemContainers_ok (env : IgEnv) :
    ∀ (urls : List String) (ids : List String),
      (createCarouselItemContainers env urls).2 = .ok ids →
      List.Forall₂ (fun u cid => env.mediaContainer (.carouselItem u) = .ok cid)
        urls ids := by
  intro urls
  induction urls with
  | nil =>
    intro ids hids
    simp [createCarouselItemContainers] at hids
    subst hids
    exact List.Forall₂.nil
  | cons u rest ih =>
    intro ids hids
    cases h : env.mediaContainer (.carouselItem u) with
    | error e => simp [createCarouselItemContainers, h] at hids
    | ok cid =>
      simp only [createCarouselItemContainers, h] at hids
      cases hrest : (createCarouselItemContainers env rest).2 with
      | error e => rw [hrest] at hids; simp [Except.map] at hids
      | ok restIds =>
        rw [hrest] at hids
        simp [Except.map] at hids
        subst hids
        exact List.Forall₂.cons h (ih restIds hrest)

/-- The first call of a nonempty carousel-items loop is the container
creation for the first URL. -/
theorem createCarouselItemContainers_head (env : IgEnv) (u : String)
    (rest : List String) :
    (createCarouselItemContainers env (u :: rest)).1.head? =
      some (IgCall.media (.carouselItem u)) := by
  cases h : env.mediaContainer (.carouselItem u) with
  | error e => simp [createCarouselItemContainers, h]
  | ok cid => simp [createCarouselItemContainers, h]

/-- Step 3 on a single image is exactly one single-image container call. -/
theorem createStep3_single (env : IgEnv) (urls : List String)
    (caption : String) (h : urls.length = 1) :
    createStep3 env urls caption =
      ([.media (.single (urls.headD "") caption)],
       env.mediaContainer (.single (urls.headD "") caption)) := by
  simp [createStep3, h, createSingleImageContainer]

/-- Step 3 on a carousel whose children all succeed: the child calls
followed by one parent call whose children parameter is the comma-join of
the child identifiers. -/
theorem createStep3_carousel_ok (env : IgEnv) (urls : List String)
    (caption : String) (ids : List String) (h : urls.length ≠ 1)
    (hok : (createCarouselItemContainers env urls).2 = .ok ids) :
    createStep3 env urls caption =
      ((createCarouselItemContainers env urls).1 ++
         [.media (.carouselParent (String.intercalate "," ids) caption)],
       env.mediaContainer (.carouselParent (String.intercalate "," ids) caption)) := by
  simp only [createStep3, h, if_false]
  cases hcc : createCarouselItemContainers env urls with
  | mk traceA res =>
    rw [hcc] at hok
    simp at hok
    subst hok
    simp [createCarouselContainer]

/-- Step 3 on a carousel with a failing child aborts with exactly the
child calls made so far and no parent call. -/
theorem createStep3_carousel_err (env : IgEnv) (urls : List String)
    (caption : String) (e : String) (h : urls.length ≠ 1)
    (herr : (createCarouselItemContainers env urls).2 = .error e) :
    createStep3 env urls caption =
      ((createCarouselItemContainers env urls).1, .error e) := by
  simp only [createStep3, h, if_false]
  cases hcc : createCarouselItemContainers env urls with
  | mk traceA res =>
    rw [hcc] at herr
    simp at herr
    subst herr
    simp

/-- A failed identity resolution makes no media calls at all. -/
theorem publishInstagramPost_pageinfo_err (env : IgEnv) (urls : List String)
    (caption : String) (e : String) (h : getPageInfo env = .error e) :
    publishInstagramPost env urls caption = ([], .error e) := by
  simp [publishInstagramPost, h]

/-- A failed step 3 propagates: the workflow returns the step-3 error with
exactly the step-3 calls. -/
theorem publishInstagramPost_step3_err (env : IgEnv) (urls : List String)
    (caption : String) (info : PageInfo) (e : String)
    (hpi : getPageInfo env = .ok info)
    (h3 : (createStep3 env urls caption).2 = .error e) :
    publishInstagramPost env urls caption =
      ((createStep3 env urls caption).1, .error e) := by
  simp only [publishInstagramPost, hpi]
  cases hc : createStep3 env urls caption with
  | mk t3 res =>
    rw [hc] at h3
    simp at h3
    subst h3
    simp

/-- A successful step 3 is followed by exactly one publish call. -/
theorem publishInstagramPost_step3_ok (env : IgEnv) (urls : List String)
    (caption : String) (info : PageInfo) (cid : String)
    (hpi : getPageInfo env = .ok info)
    (h3 : (createStep3 env urls caption).2 = .ok cid) :
    publishInstagramPost env urls caption =
      ((createStep3 env urls caption).1 ++ [.mediaPublish cid],
       match env.mediaPublishCall cid with
       | .error e => .error e
       | .ok publishedId => .ok ⟨cid, publishedId⟩) := by
  simp only [publishInstagramPost, hpi]
  cases hc : createStep3 env urls caption with
  | mk t3 res =>
    rw [hc] at h3
    simp at h3
    subst h3
    simp only [publishMediaContainer]
    cases hp : env.mediaPublishCall cid <;> simp

end CaptionPilot

namespace CaptionPilot

/-- captionsOfCalls distributes over concatenation of traces. -/
theorem captionsOfCalls_append (a b : List IgCall) :
    captionsOfCalls (a ++ b) = captionsOfCalls a ++ captionsOfCalls b := by
  simp [captionsOfCalls]

/-- Carousel child calls carry no caption. -/
theorem captionsOfCalls_children (env : IgEnv) (urls : List String) :
    captionsOfCalls (createCarouselItemContainers env urls).1 = [] := by
  induction urls with
  | nil => simp [createCarouselItemContainers, captionsOfCalls]
  | cons u rest ih =>
    cases h : env.mediaContainer (.carouselItem u) with
    | error e => simp [createCarouselItemContainers, h, captionsOfCalls]
    | ok cid =>
      simp only [createCarouselItemContainers, h]
      simpa [captionsOfCalls] using ih

/-- Every caption carried by a step-3 call is the caption argument. -/
theorem captionsOfCalls_step3 (env : IgEnv) (urls : List String)
    (caption : String) :
    ∀ cap ∈ captionsOfCalls (createStep3 env urls caption).1, cap = caption := by
  intro cap hcap
  by_cases h1 : urls.length = 1
  · rw [createStep3_single env urls caption h1] at hcap
    simp [captionsOfCalls] at hcap
    exact hcap
  · cases hcc : (createCarouselItemContainers env urls).2 with
    | error e =>
      rw [createStep3_carousel_err env urls caption e h1 hcc] at hcap
      rw [captionsOfCalls_children] at hcap
      simp at hcap
    | ok ids =>
      rw [createStep3_carousel_ok env urls caption ids h1 hcc] at hcap
      rw [captionsOfCalls_append, captionsOfCalls_children] at hcap
      simp [captionsOfCalls] at hcap
      exact hcap

/-- Every caption carried by a call of the publish workflow is the caption
argument of the workflow. -/
theorem captionsOfCalls_publish (env : IgEnv) (urls : List String)
    (caption : String) :
    ∀ cap ∈ captionsOfCalls (publishInstagramPost env urls caption).1,
      cap = caption := by
  intro cap hcap
  cases hpi : getPageInfo env with
  | error e =>
    rw [publishInstagramPost_pageinfo_err env urls caption e hpi] at hcap
    simp [captionsOfCalls] at hcap
  | ok info =>
    cases h3 : (createStep3 env urls caption).2 with
    | error e =>
      rw [publishInstagramPost_step3_err env urls caption info e hpi h3] at hcap
      exact captionsOfCalls_step3 env urls caption cap hcap
    | ok cid =>
      rw [publishInstagramPost_step3_ok env urls caption info cid hpi h3] at hcap
      rw [captionsOfCalls_append] at hcap
      rcases List.mem_append.mp hcap with hm | hm
      · exact captionsOfCalls_step3 env urls caption cap hm
      · simp [captionsOfCalls] at hm

/-- An error-free upload batch loses no results: as many successes as
inputs. -/
theorem successfulUploadsOf_length
    (rs : List (Except CloudinaryErrorInfo CloudinaryUploadResult))
    (h : uploadErrors rs = []) :
    (successfulUploadsOf rs).length = rs.length := by
  induction rs with
  | nil => rfl
  | cons r rest ih =>
    cases r with
    | error e => simp [uploadErrors] at h
    | ok u =>
      simp only [uploadErrors, List.filterMap_cons] at h
      have ih2 := ih h
      simp only [successfulUploadsOf, List.filterMap_cons, List.length_cons]
      simp only [successfulUploadsOf] at ih2
      rw [ih2]

/-- Run equation for a failed upload batch: the orchestrator returns the
aggregated failure, leaves the store untouched and makes no Instagram
call. -/
theorem uploadWith_upload_err (env : UploadEnv) (midEdit : Store → Store)
    (store : Store) (post : DraftPost) (cfg : CloudinaryConfig)
    (files : List LoadedFile)
    (hc : env.cloudinaryConfig = some cfg)
    (hl : loadImageFiles env post.images = .ok files)
    (hne : files ≠ [])
    (herr : uploadErrors (uploadMultipleImagesToCloudinary env files) ≠ []) :
    uploadInstagramPostImagesWith env midEdit store post =
      ⟨store,
       { success := false,
         error := some ("Failed to upload "
           ++ toString (uploadErrors (uploadMultipleImagesToCloudinary env files)).length
           ++ " images: "
           ++ String.intercalate ", "
             ((uploadErrors (uploadMultipleImagesToCloudinary env files)).map
               (fun e => e.message))) },
       [], none⟩ := by
  unfold uploadInstagramPostImagesWith
  rw [hc, hl]
  have hne2 : files.isEmpty = false := by
    cases files with
    | nil => exact absurd rfl hne
    | cons a t => rfl
  have herr2 : (uploadErrors (uploadMultipleImagesToCloudinary env files)).isEmpty = false := by
    cases h : uploadErrors (uploadMultipleImagesToCloudinary env files) with
    | nil => exact absurd h herr
    | cons a t => rfl
  simp [hne2, herr2]

/-- The calls of an orchestrator run are either empty or exactly the calls
of one publishInstagramPost invocation with the caption of the post
argument. -/
theorem uploadWith_calls_cases (env : UploadEnv) (midEdit : Store → Store)
    (store : Store) (post : DraftPost) :
    (uploadInstagramPostImagesWith env midEdit store post).calls = [] ∨
    ∃ urls, (uploadInstagramPostImagesWith env midEdit store post).calls =
      (publishInstagramPost env.ig urls post.caption).1 := by
  unfold uploadInstagramPostImagesWith
  cases env.cloudinaryConfig with
  | none => exact Or.inl rfl
  | some cfg =>
    cases loadImageFiles env post.images with
    | error msg => exact Or.inl rfl
    | ok files =>
      by_cases hfe : files.isEmpty
      · simp only [hfe]
        exact Or.inl rfl
      · simp only [hfe]
        by_cases herr : (uploadErrors (uploadMultipleImagesToCloudinary env files)).isEmpty
        · simp only [herr]
          by_cases hsu : (successfulUploadsOf (uploadMultipleImagesToCloudinary env files)).isEmpty
          · simp only [hsu]
            exact Or.inl rfl
          · simp only [hsu]
            cases env.appSettings with
            | none => exact Or.inl rfl
            | some settings =>
              obtain ⟨tok⟩ := settings
              cases tok with
              | none => exact Or.inl rfl
              | some token =>
                cases hp : (publishInstagramPost env.ig
                    (List.map (fun img => img.secureUrl)
                      (successfulUploadsOf (uploadMultipleImagesToCloudinary env files)))
                    post.caption).2 with
                | error e => exact Or.inr ⟨_, rfl⟩
                | ok r => exact Or.inr ⟨_, rfl⟩
        · simp only [herr]
          exact Or.inl rfl

/-- Run equation for a successful upload followed by a failed publish: the
orchestrator reports success with the publish error in the error field,
the calls of the attempted publish, and a final store equal to the one
persisted right after the upload step (then passed through the modelled
concurrent edit). -/
theorem uploadWith_publish_err (env : UploadEnv) (midEdit : Store → Store)
    (store : Store) (post : DraftPost) (cfg : CloudinaryConfig)
    (files : List LoadedFile) (settings : AppSettings) (token e : String)
    (hc : env.cloudinaryConfig = some cfg)
    (hl : loadImageFiles env post.images = .ok files)
    (hne : files ≠ [])
    (hok : uploadErrors (uploadMultipleImagesToCloudinary env files) = [])
    (hs : env.appSettings = some settings)
    (ht : settings.instagramUserToken = some token)
    (hpub : (publishInstagramPost env.ig
        ((successfulUploadsOf (uploadMultipleImagesToCloudinary env files)).map
          (fun img => img.secureUrl)) post.caption).2 = .error e) :
    uploadInstagramPostImagesWith env midEdit store post =
      ⟨midEdit (updateDraftPost store
         { post with
             cloudinaryImages :=
               some (successfulUploadsOf (uploadMultipleImagesToCloudinary env files)),
             status := some .new }),
       { success := true,
         cloudinaryImages :=
           some (successfulUploadsOf (uploadMultipleImagesToCloudinary env files)),
         error := some ("Images uploaded to Cloudinary successfully, but failed to publish to Instagram: " ++ e) },
       (publishInstagramPost env.ig
         ((successfulUploadsOf (uploadMultipleImagesToCloudinary env files)).map
           (fun img => img.secureUrl)) post.caption).1,
       some (midEdit (updateDraftPost store
         { post with
             cloudinaryImages :=
               some (successfulUploadsOf (uploadMultipleImagesToCloudinary env files)),
             status := some .new }))⟩ := by
  unfold uploadInstagramPostImagesWith
  rw [hc, hl]
  have hne2 : files.isEmpty = false := by
    cases files with
    | nil => exact absurd rfl hne
    | cons a t => rfl
  have herr2 : (uploadErrors (uploadMultipleImagesToCloudinary env files)).isEmpty = true := by
    rw [hok]; rfl
  have hsu : (successfulUploadsOf (uploadMultipleImagesToCloudinary env files)).isEmpty = false := by
    have hlen := successfulUploadsOf_length (uploadMultipleImagesToCloudinary env files) hok
    cases hsuc : successfulUploadsOf (uploadMultipleImagesToCloudinary env files) with
    | cons a t => rfl
    | nil =>
      rw [hsuc] at hlen
      simp [uploadMultipleImagesToCloudinary] at hlen
      cases files with
      | nil => exact absurd rfl hne
      | cons a t => simp at hlen
  simp only [hne2, herr2, hsu, Bool.not_true, Bool.false_eq_true, if_false,
    Bool.not_false]
  simp only [hs, ht]
  simp only [hpub]

/-- find? over an id-keyed replacement finds the replacement when some
record carried the id. -/
theorem find_after_replace (p : DraftPost) :
    ∀ s : Store, s.any (fun q => decide (q.id = p.id)) = true →
      (s.map (fun q => if q.id = p.id then p else q)).find?
        (fun q => decide (q.id = p.id)) = some p := by
  intro s
  induction s with
  | nil => intro h; simp at h
  | cons q t ih =>
    intro h
    by_cases hq : q.id = p.id
    · simp [hq, List.find?_cons_of_pos]
    · simp only [List.any_cons, Bool.or_eq_true, decide_eq_true_eq] at h
      rcases h with h | h
      · exact absurd h hq
      · simp only [List.map_cons, if_neg hq]
        rw [List.find?_cons_of_neg]
        · exact ih h
        · simp [hq]

/-- find? over an append of a fresh record finds that record when no
earlier record carried the id. -/
theorem find_after_append (p : DraftPost) :
    ∀ s : Store, s.any (fun q => decide (q.id = p.id)) = false →
      (s ++ [p]).find? (fun q => decide (q.id = p.id)) = some p := by
  intro s
  induction s with
  | nil => simp
  | cons q t ih =>
    intro h
    simp only [List.any_cons, Bool.or_eq_false_iff] at h
    simp only [List.cons_append]
    rw [List.find?_cons_of_neg]
    · exact ih h.2
    · simp [h.1]

/-- Reading back a record right after an id-keyed put returns exactly the
record written. -/
theorem getDraftPost_updateDraftPost (s : Store) (p : DraftPost) :
    getDraftPost (updateDraftPost s p) p.id = some p := by
  unfold updateDraftPost getDraftPost
  cases h : s.any (fun q => decide (q.id = p.id)) with
  | true =>
    simp only [h, if_true]
    exact find_after_replace p s h
  | false =>
    simp only [h, Bool.false_eq_true, if_false]
    exact find_after_append p s h

end CaptionPilot

/- ## Claim theorems -/

namespace CaptionPilot

/-- C1: the claimed invariant (a persisted remotePublishId implies
non-empty persisted remoteAssetRefs) is broken by the code at this input.
A fully successful scheduler tick on a fresh post yields an orchestrator
run that reports success with non-empty cloudinaryImages, yet the record
the tick persists last carries instagramPostId = pub1 with
cloudinaryImages = none: the final status write of publishPost spreads the
stale pre-upload record and clobbers the uploaded asset references. -/
theorem c1_publish_id_without_asset_refs :
    (uploadInstagramPostImages envOK [post0] post0).result.success = true ∧
    (uploadInstagramPostImages envOK [post0] post0).result.cloudinaryImages ≠ none ∧
    (getDraftPost (checkInstagramSchedule envOK (some ⟨true, 24⟩)
        (1000 * hourMs) [post0]).store "p0").map
        (fun r => (r.instagramPostId, r.cloudinaryImages)) =
      some (some "pub1", none) := by
  decide

/-- C2: the scheduler marks a post published even when the orchestrator
reports failure.  With no Cloudinary configuration the orchestrator
returns success = false and writes nothing, yet publishPost still persists
the record with status published and no publish identifier: the source
never inspects result.success and its catch branch is unreachable because
uploadInstagramPostImages never throws. -/
theorem c2_status_published_on_failure :
    (uploadInstagramPostImages envNoConfig [post0] post0).result.success = false ∧
    (getDraftPost (publishPost envNoConfig [post0] post0) "p0").map
        (fun r => (r.status, r.instagramPostId)) =
      some (some .published, none) := by
  decide

/-- C3 counterexample: the claim says the candidate set is exactly the
posts without a remote publish identifier.  On a store holding one post
that is live (instagramPostId set) but has advisory status new, the
claimed candidate set is empty, yet the code selects that very post,
because the source filters on status, not on the identifier. -/
theorem c3_counterexample :
    [postLiveStatusNew].filter specCandidate = [] ∧
    findNextPostToPublish [postLiveStatusNew] = some postLiveStatusNew := by
  decide

/-- C3 (amended): the candidate set is exactly the Instagram posts whose
advisory status is not published; the tick selects no post exactly when
that set is empty, and any selected post belongs to the set and has
maximal effective position (position, or -1 when absent) in it. -/
theorem c3_selection (allPosts : List DraftPost) :
    (findNextPostToPublish allPosts = none ↔
       allPosts.filter isUnpublishedInstagram = []) ∧
    (∀ p, findNextPostToPublish allPosts = some p →
       isUnpublishedInstagram p = true ∧ p ∈ allPosts ∧
       ∀ q ∈ allPosts, isUnpublishedInstagram q = true →
         effPosition q ≤ effPosition p) :=
  ⟨findNextPostToPublish_none_iff allPosts,
   fun _ hp => findNextPostToPublish_some_spec hp⟩

/-- Witness for c3_selection at a concrete two-post store: the selected
post is the status-unpublished post of highest position. -/
theorem c3_selection_witness :
    isUnpublishedInstagram post2 = true ∧ post2 ∈ [post0, post2] ∧
    effPosition post0 ≤ effPosition post2 :=
  have h := (c3_selection [post0, post2]).2 post2 (by decide)
  ⟨h.1, h.2.1, h.2.2 post0 (by decide) (by decide)⟩

/-- C4 counterexample: reading the live-signal the way the spec defines it
(remote publish identifier present), a post published 10 hours ago under a
24-hour interval must make the tick a no-op; the code still invokes the
orchestrator (on that very post), because its pacing filter looks at the
advisory status, which is still new. -/
theorem c4_counterexample :
    specLivePost postLiveStatusNew = true ∧
    (1000 * hourMs) - postLiveStatusNew.createdAt < 24 * hourMs ∧
    (checkInstagramSchedule envOK (some ⟨true, 24⟩) (1000 * hourMs)
        [postLiveStatusNew]).invoked = [postLiveStatusNew] := by
  decide

/-- C4 (amended): with lastPublishedAt computed over the posts whose
advisory status is published (as the code does), an active-config tick is
a no-op whenever the elapsed time is below hoursBetweenPosts in
milliseconds, and otherwise invokes the orchestrator exactly once, on the
highest-position status-unpublished post, or not at all when no candidate
exists. -/
theorem c4_pacing (env : UploadEnv) (sch : ScheduleConfig) (now : Int)
    (store : Store) (hact : sch.isActive = true) :
    (elapsedLt (timeSinceLastPostOf now (lastPublishedTimeOf (store.filter isPublishedInstagram)))
        ((sch.hoursBetweenPosts : Int) * 60 * 60 * 1000) = true →
       checkInstagramSchedule env (some sch) now store = ⟨store, []⟩) ∧
    (elapsedLt (timeSinceLastPostOf now (lastPublishedTimeOf (store.filter isPublishedInstagram)))
        ((sch.hoursBetweenPosts : Int) * 60 * 60 * 1000) = false →
       (findNextPostToPublish store = none →
          checkInstagramSchedule env (some sch) now store = ⟨store, []⟩) ∧
       (∀ p, findNextPostToPublish store = some p →
          (checkInstagramSchedule env (some sch) now store).invoked = [p] ∧
          isUnpublishedInstagram p = true ∧ p ∈ store ∧
          ∀ q ∈ store, isUnpublishedInstagram q = true →
            effPosition q ≤ effPosition p)) := by
  constructor
  · intro hlt
    simp [checkInstagramSchedule, hact, hlt]
  · intro hge
    constructor
    · intro hnone
      simp [checkInstagramSchedule, hact, hge, hnone]
    · intro p hp
      have hspec := findNextPostToPublish_some_spec hp
      refine ⟨?_, hspec.1, hspec.2.1, hspec.2.2⟩
      simp [checkInstagramSchedule, hact, hge, hp]

/-- Witness for c4_pacing at a concrete store whose last status-published
post is 100 hours old under a 24-hour interval: the tick invokes the
orchestrator exactly once, on the highest-position candidate. -/
theorem c4_pacing_witness :
    (checkInstagramSchedule envOK (some ⟨true, 24⟩) (1000 * hourMs)
        [postPub, post0, post2]).invoked = [post2] ∧
    isUnpublishedInstagram post2 = true ∧
    effPosition post0 ≤ effPosition post2 :=
  have h := ((c4_pacing envOK ⟨true, 24⟩ (1000 * hourMs) [postPub, post0, post2]
    rfl).2 (by decide)).2 post2 (by decide)
  ⟨h.1, h.2.1, h.2.2.2 post0 (by decide) (by decide)⟩

/-- C5: for a carousel publish (two or more image URLs) whose identity
resolution succeeded, child container identifiers pair up with the input
URLs in input order, the parent container call carries exactly those
identifiers comma-joined in that order, and a failing child aborts the
whole step: the workflow returns that error and no parent container call
is ever made. -/
theorem c5_carousel (env : IgEnv) (urls : List String) (caption : String)
    (info : PageInfo) (hn : 2 ≤ urls.length)
    (hpi : getPageInfo env = .ok info) :
    (∀ ids, (createCarouselItemContainers env urls).2 = .ok ids →
       List.Forall₂ (fun u cid =>
         env.mediaContainer (.carouselItem u) = .ok cid) urls ids ∧
       IgCall.media (.carouselParent (String.intercalate "," ids) caption)
         ∈ (publishInstagramPost env urls caption).1) ∧
    (∀ e, (createCarouselItemContainers env urls).2 = .error e →
       (publishInstagramPost env urls caption).2 = .error e ∧
       ∀ ch cap2, IgCall.media (.carouselParent ch cap2)
         ∉ (publishInstagramPost env urls caption).1) := by
  have hne1 : urls.length ≠ 1 := by omega
  constructor
  · intro ids hok
    refine ⟨createCarouselItemContainers_ok env urls ids hok, ?_⟩
    have h3 := createStep3_carousel_ok env urls caption ids hne1 hok
    cases hpar : env.mediaContainer
        (.carouselParent (String.intercalate "," ids) caption) with
    | error e =>
      have h3e : (createStep3 env urls caption).2 = .error e := by
        rw [h3]; exact hpar
      rw [publishInstagramPost_step3_err env urls caption info e hpi h3e, h3]
      simp
    | ok cid =>
      have h3o : (createStep3 env urls caption).2 = .ok cid := by
        rw [h3]; exact hpar
      rw [publishInstagramPost_step3_ok env urls caption info cid hpi h3o, h3]
      simp
  · intro e herr
    have h3 := createStep3_carousel_err env urls caption e hne1 herr
    have h3e : (createStep3 env urls caption).2 = .error e := by rw [h3]
    rw [publishInstagramPost_step3_err env urls caption info e hpi h3e, h3]
    refine ⟨rfl, ?_⟩
    intro ch cap2 hmem
    obtain ⟨u, _, hcu⟩ := createCarouselItemContainers_calls env urls _ hmem
    simp at hcu

/-- Witness for c5_carousel on a two-image carousel in which every call
succeeds: identifiers pair up in order and the parent call carries them
comma-joined. -/
theorem c5_carousel_witness :
    List.Forall₂ (fun u cid =>
        igEnvOK.mediaContainer (.carouselItem u) = .ok cid)
      ["uA", "uB"] ["cc-uA", "cc-uB"] ∧
    IgCall.media (.carouselParent "cc-uA,cc-uB" "cap")
      ∈ (publishInstagramPost igEnvOK ["uA", "uB"] "cap").1 :=
  (c5_carousel igEnvOK ["uA", "uB"] "cap" ⟨"ptok", "page1", "ig1"⟩
    (by decide) rfl).1 ["cc-uA", "cc-uB"] rfl

/-- C6: with exactly one image URL the workflow never makes a carousel
child or parent call, and (once identity resolution succeeds) its first
call is the single-image container; with two or more URLs it never makes a
single-image call, and its first call is the child container of the first
URL. -/
theorem c6_branching (env : IgEnv) (urls : List String) (caption : String) :
    (urls.length = 1 →
       (∀ u, IgCall.media (.carouselItem u)
          ∉ (publishInstagramPost env urls caption).1) ∧
       (∀ ch cap2, IgCall.media (.carouselParent ch cap2)
          ∉ (publishInstagramPost env urls caption).1) ∧
       (∀ info, getPageInfo env = .ok info →
          (publishInstagramPost env urls caption).1.head? =
            some (.media (.single (urls.headD "") caption)))) ∧
    (2 ≤ urls.length →
       (∀ u cap2, IgCall.media (.single u cap2)
          ∉ (publishInstagramPost env urls caption).1) ∧
       (∀ info, getPageInfo env = .ok info →
          (publishInstagramPost env urls caption).1.head? =
            some (.media (.carouselItem (urls.headD ""))))) := by
  cases hpi : getPageInfo env with
  | error e =>
    rw [publishInstagramPost_pageinfo_err env urls caption e hpi]
    constructor
    · intro _
      refine ⟨by simp, by simp, ?_⟩
      intro info hinfo
      simp [hpi] at hinfo
    · intro _
      refine ⟨by simp, ?_⟩
      intro info hinfo
      simp [hpi] at hinfo
  | ok info =>
    constructor
    · intro h1
      have h3 := createStep3_single env urls caption h1
      cases hsc : env.mediaContainer (.single (urls.headD "") caption) with
      | error e =>
        have h3e : (createStep3 env urls caption).2 = .error e := by
          rw [h3]; exact hsc
        rw [publishInstagramPost_step3_err env urls caption info e hpi h3e, h3]
        refine ⟨by simp, by simp, ?_⟩
        intro info2 _
        simp
      | ok cid =>
        have h3o : (createStep3 env urls caption).2 = .ok cid := by
          rw [h3]; exact hsc
        rw [publishInstagramPost_step3_ok env urls caption info cid hpi h3o, h3]
        refine ⟨by simp, by simp, ?_⟩
        intro info2 _
        simp
    · intro h2
      have hne1 : urls.length ≠ 1 := by omega
      obtain ⟨u, rest, hurls⟩ : ∃ u rest, urls = u :: rest := by
        cases urls with
        | nil => simp at h2
        | cons a t => exact ⟨a, t, rfl⟩
      have hhead := createCarouselItemContainers_head env u rest
      have hnoSingle : ∀ c ∈ (createCarouselItemContainers env urls).1,
          ∀ u2 cap2, c ≠ IgCall.media (.single u2 cap2) := by
        intro c hc u2 cap2
        obtain ⟨u3, _, hcu3⟩ := createCarouselItemContainers_calls env urls c hc
        simp [hcu3]
      cases hcc : (createCarouselItemContainers env urls).2 with
      | error e =>
        have h3 := createStep3_carousel_err env urls caption e hne1 hcc
        have h3e : (createStep3 env urls caption).2 = .error e := by rw [h3]
        rw [publishInstagramPost_step3_err env urls caption info e hpi h3e, h3]
        constructor
        · intro u2 cap2 hmem
          exact hnoSingle _ hmem u2 cap2 rfl
        · intro info2 _
          subst hurls
          cases hct : (createCarouselItemContainers env (u :: rest)).1 with
          | nil => rw [hct] at hhead; simp at hhead
          | cons c t =>
            rw [hct] at hhead
            simp at hhead
            simp [hct, hhead]
      | ok ids =>
        have h3 := createStep3_carousel_ok env urls caption ids hne1 hcc
        cases hpar : env.mediaContainer
            (.carouselParent (String.intercalate "," ids) caption) with
        | error e =>
          have h3e : (createStep3 env urls caption).2 = .error e := by
            rw [h3]; exact hpar
          rw [publishInstagramPost_step3_err env urls caption info e hpi h3e, h3]
          constructor
          · intro u2 cap2 hmem
            rcases List.mem_append.mp hmem with hm | hm
            · exact hnoSingle _ hm u2 cap2 rfl
            · simp at hm
          · intro info2 _
            subst hurls
            cases hct : (createCarouselItemContainers env (u :: rest)).1 with
            | nil => rw [hct] at hhead; simp at hhead
            | cons c t =>
              rw [hct] at hhead
              simp at hhead
              simp [hct, hhead]
        | ok cid =>
          have h3o : (createStep3 env urls caption).2 = .ok cid := by
            rw [h3]; exact hpar
          rw [publishInstagramPost_step3_ok env urls caption info cid hpi h3o, h3]
          constructor
          · intro u2 cap2 hmem
            rcases List.mem_append.mp hmem with hm | hm
            · rcases List.mem_append.mp hm with hm2 | hm2
              · exact hnoSingle _ hm2 u2 cap2 rfl
              · simp at hm2
            · simp at hm
          · intro info2 _
            subst hurls
            cases hct : (createCarouselItemContainers env (u :: rest)).1 with
            | nil => rw [hct] at hhead; simp at hhead
            | cons c t =>
              rw [hct] at hhead
              simp at hhead
              simp [hct, hhead]

/-- Witness for c6_branching: one concrete single-image run takes the
single path and makes no child call; one concrete two-image run makes no
single call and opens with the first child container. -/
theorem c6_branching_witness :
    (publishInstagramPost igEnvOK ["uA"] "cap").1.head? =
      some (.media (.single "uA" "cap")) ∧
    IgCall.media (.carouselItem "uA")
      ∉ (publishInstagramPost igEnvOK ["uA"] "cap").1 ∧
    IgCall.media (.single "uA" "cap")
      ∉ (publishInstagramPost igEnvOK ["uA", "uB"] "cap").1 ∧
    (publishInstagramPost igEnvOK ["uA", "uB"] "cap").1.head? =
      some (.media (.carouselItem "uA")) :=
  have h1 := (c6_branching igEnvOK ["uA"] "cap").1 rfl
  have h2 := (c6_branching igEnvOK ["uA", "uB"] "cap").2 (by decide)
  ⟨h1.2.2 ⟨"ptok", "page1", "ig1"⟩ rfl, h1.1 "uA",
   h2.1 "uA" "cap", h2.2 ⟨"ptok", "page1", "ig1"⟩ rfl⟩

end CaptionPilot

namespace CaptionPilot

/-- C7: when at least one upload of the batch fails, the orchestrator
returns success = false with the aggregated error naming every per-file
failure, leaves the store exactly as it was (no partial cloudinaryImages
write), and makes no publish call. -/
theorem c7_upload_all_or_nothing (env : UploadEnv) (store : Store)
    (post : DraftPost) (cfg : CloudinaryConfig) (files : List LoadedFile)
    (hc : env.cloudinaryConfig = some cfg)
    (hl : loadImageFiles env post.images = .ok files)
    (hne : files ≠ [])
    (herr : uploadErrors (uploadMultipleImagesToCloudinary env files) ≠ []) :
    (uploadInstagramPostImages env store post).result.success = false ∧
    (uploadInstagramPostImages env store post).result.error =
      some ("Failed to upload "
        ++ toString (uploadErrors (uploadMultipleImagesToCloudinary env files)).length
        ++ " images: "
        ++ String.intercalate ", "
          ((uploadErrors (uploadMultipleImagesToCloudinary env files)).map
            (fun e => e.message))) ∧
    (uploadInstagramPostImages env store post).store = store ∧
    (uploadInstagramPostImages env store post).calls = [] := by
  unfold uploadInstagramPostImages
  rw [uploadWith_upload_err env id store post cfg files hc hl hne herr]
  exact ⟨rfl, rfl, rfl, rfl⟩

/-- Witness for c7_upload_all_or_nothing on a concrete two-image post
whose second upload fails. -/
theorem c7_upload_all_or_nothing_witness :
    (uploadInstagramPostImages envUploadFailB [post2] post2).result.success = false ∧
    (uploadInstagramPostImages envUploadFailB [post2] post2).store = [post2] ∧
    (uploadInstagramPostImages envUploadFailB [post2] post2).calls = [] :=
  have h := c7_upload_all_or_nothing envUploadFailB [post2] post2
    ⟨"cloud", "preset", none⟩ [⟨"a.jpg", "image/jpeg"⟩, ⟨"b.jpg", "image/jpeg"⟩]
    rfl rfl (by decide) (by decide)
  ⟨h.1, h.2.2.1, h.2.2.2⟩

/-- C8: when the whole batch uploads and the publish sequence then fails,
the orchestrator returns success = true with the publish error in the
error field and no identifiers in the result, and the persisted store is
exactly the one written right after the upload step: the record of the
post carries the fresh non-empty cloudinaryImages and (for a
not-yet-published post) no publish identifiers, so a retry can proceed. -/
theorem c8_publish_failure_frame (env : UploadEnv) (store : Store)
    (post : DraftPost) (cfg : CloudinaryConfig) (files : List LoadedFile)
    (settings : AppSettings) (token e : String)
    (hc : env.cloudinaryConfig = some cfg)
    (hl : loadImageFiles env post.images = .ok files)
    (hne : files ≠ [])
    (hok : uploadErrors (uploadMultipleImagesToCloudinary env files) = [])
    (hs : env.appSettings = some settings)
    (ht : settings.instagramUserToken = some token)
    (hpub : (publishInstagramPost env.ig
        ((successfulUploadsOf (uploadMultipleImagesToCloudinary env files)).map
          (fun img => img.secureUrl)) post.caption).2 = .error e)
    (hid : post.instagramPostId = none)
    (hcid : post.instagramContainerId = none) :
    (uploadInstagramPostImages env store post).result.success = true ∧
    (uploadInstagramPostImages env store post).result.error =
      some ("Images uploaded to Cloudinary successfully, but failed to publish to Instagram: " ++ e) ∧
    (uploadInstagramPostImages env store post).result.instagramPostId = none ∧
    (uploadInstagramPostImages env store post).result.instagramContainerId = none ∧
    (uploadInstagramPostImages env store post).store =
      updateDraftPost store
        { post with
            cloudinaryImages :=
              some (successfulUploadsOf (uploadMultipleImagesToCloudinary env files)),
            status := some .new } ∧
    getDraftPost (uploadInstagramPostImages env store post).store post.id =
      some { post with
               cloudinaryImages :=
                 some (successfulUploadsOf (uploadMultipleImagesToCloudinary env files)),
               status := some .new } ∧
    ({ post with
         cloudinaryImages :=
           some (successfulUploadsOf (uploadMultipleImagesToCloudinary env files)),
         status := some .new } : DraftPost).instagramPostId = none ∧
    ({ post with
         cloudinaryImages :=
           some (successfulUploadsOf (uploadMultipleImagesToCloudinary env files)),
         status := some .new } : DraftPost).instagramContainerId = none ∧
    successfulUploadsOf (uploadMultipleImagesToCloudinary env files) ≠ [] := by
  have hsu : successfulUploadsOf (uploadMultipleImagesToCloudinary env files) ≠ [] := by
    have hlen := successfulUploadsOf_length (uploadMultipleImagesToCloudinary env files) hok
    intro hnil
    rw [hnil] at hlen
    simp [uploadMultipleImagesToCloudinary] at hlen
    cases files with
    | nil => exact absurd rfl hne
    | cons a t => simp at hlen
  unfold uploadInstagramPostImages
  rw [uploadWith_publish_err env id store post cfg files settings token e
    hc hl hne hok hs ht hpub]
  refine ⟨rfl, rfl, rfl, rfl, rfl, ?_, by simp [hid], by simp [hcid], hsu⟩
  show getDraftPost (id (updateDraftPost store _)) post.id = _
  simp only [id_eq]
  exact getDraftPost_updateDraftPost store _

/-- Witness for c8_publish_failure_frame: a concrete run whose upload
succeeds and whose publish fails at identity resolution. -/
theorem c8_publish_failure_frame_witness :
    (uploadInstagramPostImages envPublishFail [post0] post0).result.success = true ∧
    (uploadInstagramPostImages envPublishFail [post0] post0).result.instagramPostId = none ∧
    (uploadInstagramPostImages envPublishFail [post0] post0).result.instagramContainerId = none ∧
    successfulUploadsOf (uploadMultipleImagesToCloudinary envPublishFail
      [⟨"a.jpg", "image/jpeg"⟩]) ≠ [] :=
  have h := c8_publish_failure_frame envPublishFail [post0] post0
    ⟨"cloud", "preset", none⟩ [⟨"a.jpg", "image/jpeg"⟩] ⟨some "usertok"⟩ "usertok"
    "No Facebook pages found. Make sure your Instagram account is connected to a Facebook page."
    rfl rfl (by decide) (by decide) rfl rfl rfl rfl rfl
  ⟨h.1, h.2.2.1, h.2.2.2.1, h.2.2.2.2.2.2.2.2⟩

/-- C9 counterexample: with a concurrent caption edit at the suspension
point between the upload persist and the publish call, the publish call
still carries the caption of the snapshot passed to the orchestrator
(Hello), while the record in the store at the instant of the publish call
says B: the orchestrator publishes a cached copy, not the caption current
on the record at publish time. -/
theorem c9_counterexample :
    captionsOfCalls (uploadInstagramPostImagesWith envOK midEditCaptionB
      [post0] post0).calls = ["Hello"] ∧
    ((uploadInstagramPostImagesWith envOK midEditCaptionB [post0] post0).storeAtPublish.bind
      (fun s => (getDraftPost s "p0").map DraftPost.caption)) = some "B" ∧
    "Hello" ≠ "B" := by
  decide

/-- C9 (amended): every caption carried by any container-creation call of
an orchestrator run equals the caption of the post record as passed to the
orchestrator at invocation time, whatever store mutation happens between
upload and publish. -/
theorem c9_caption_snapshot (env : UploadEnv) (midEdit : Store → Store)
    (store : Store) (post : DraftPost) :
    ∀ cap ∈ captionsOfCalls
        (uploadInstagramPostImagesWith env midEdit store post).calls,
      cap = post.caption := by
  intro cap hcap
  rcases uploadWith_calls_cases env midEdit store post with h | ⟨urls, h⟩
  · rw [h] at hcap
    simp [captionsOfCalls] at hcap
  · rw [h] at hcap
    exact captionsOfCalls_publish _ _ _ cap hcap

/-- Witness for c9_caption_snapshot: a concrete fully successful run
publishes the snapshot caption Hello. -/
theorem c9_caption_snapshot_witness :
    "Hello" ∈ captionsOfCalls
      (uploadInstagramPostImagesWith envOK id [post0] post0).calls ∧
    "Hello" = post0.caption :=
  ⟨by decide, c9_caption_snapshot envOK id [post0] post0 "Hello" (by decide)⟩

/-- C10: calling start on a scheduler that is already running changes
nothing (same state, no immediate check, no new interval timer); any
single start creates at most one interval timer, and stop right after any
start always lands in the stopped state with no timer. -/
theorem c10_start_idempotent (s : SchedulerState) (f : Nat)
    (h : s.isRunning = true) :
    schedulerStart f s = (s, []) ∧
    (∀ t : SchedulerState, ∀ g : Nat,
       countTimersCreated (schedulerStart g t).2 ≤ 1 ∧
       (schedulerStop (schedulerStart g t).1).1 =
         { intervalId := none, isRunning := false }) := by
  constructor
  · simp [schedulerStart, h]
  · intro t g
    constructor
    · by_cases ht : t.isRunning
      · simp [schedulerStart, ht, countTimersCreated]
      · simp [schedulerStart, ht, countTimersCreated, List.filter]
    · by_cases ht : t.isRunning
      · simp only [schedulerStart, ht, if_true]
        cases hti : t.intervalId <;> simp [schedulerStop, hti]
      · simp [schedulerStart, ht, schedulerStop]

/-- Witness for c10_start_idempotent: start on a concrete running state is
a no-op, one concrete start from the stopped state creates at most one
timer, and stop right after it clears everything. -/
theorem c10_start_idempotent_witness :
    schedulerStart 7 ⟨some 3, true⟩ = (⟨some 3, true⟩, []) ∧
    countTimersCreated (schedulerStart 7 ⟨none, false⟩).2 ≤ 1 ∧
    (schedulerStop (schedulerStart 7 ⟨none, false⟩).1).1 =
      { intervalId := none, isRunning := false } :=
  have h := c10_start_idempotent ⟨some 3, true⟩ 7 rfl
  ⟨h.1, (h.2 ⟨none, false⟩ 7).1, (h.2 ⟨none, false⟩ 7).2⟩

end CaptionPilot
